import Mathlib

/-!
Verification of the multi-metric text evaluation engine of
`day1/02_streamlit_app/metrics.py` (functions `calculate_metrics` and
`calculate_overall_quality_score`).

Modelling conventions:
* Python floats are modelled as exact rationals (`ℚ`); every arithmetic
  operation appearing in the engine (`+`, `*`, `/`, `abs`, `min`, `max`)
  is exact on the values the engine produces.
* Python strings are Lean `String`s; `len` is `String.length`
  (code-point count, as in Python).
* Calls into external libraries (the janome morphological tokenizer,
  NLTK `word_tokenize` / `sentence_bleu`, the VADER sentiment analyzer,
  scikit-learn TF-IDF + cosine similarity) are modelled as oracle fields
  of an `Env` structure; a fallible call returns `Option` and `none`
  stands for the call raising an exception.  The module-level
  `try/except` around the NLTK imports is modelled by the Boolean
  `nltkAvailable`: when it is `false`, the fallback definitions of
  `nltk_word_tokenize` / `nltk_sentence_bleu` from metrics.py lines
  21-31 are in force and the name `SentimentIntensityAnalyzer` is
  unbound (so the sentiment primary path raises `NameError`).
* Each `try/except` block of `calculate_metrics` is translated to an
  `Option`-match: the `except` branch is taken exactly when the oracle
  for the fallible call in the `try` body returns `none`.
-/

set_option maxRecDepth 16384

/-- Python `abs` on a rational. -/
def pyAbs (x : ℚ) : ℚ := if x < 0 then -x else x

/-- Python two-argument `min`. -/
def pyMin (a b : ℚ) : ℚ := if a ≤ b then a else b

/-- Python two-argument `max`. -/
def pyMax (a b : ℚ) : ℚ := if a ≤ b then b else a

/-- Python `str.lower` (ASCII model, lowering each character with
`Char.toLower`; Python additionally lowers non-ASCII cased letters,
which no claim exercises). -/
def pyLower (s : String) : String := String.mk (s.data.map Char.toLower)

/-- Characters counted as whitespace by Python `str.strip` / `str.split`
(model: the Lean whitespace class, which covers every whitespace
character the engine's inputs use). -/
def isWs (c : Char) : Bool := c.isWhitespace

/-- Auxiliary for `pySplitWs`: accumulate the current word (reversed in
`acc`) while scanning the character list. -/
def splitWsAux (acc : List Char) : List Char → List (List Char)
  | [] => if acc.isEmpty then [] else [acc.reverse]
  | c :: rest =>
    if isWs c then
      if acc.isEmpty then splitWsAux [] rest
      else acc.reverse :: splitWsAux [] rest
    else splitWsAux (c :: acc) rest

/-- Python `str.split()` with no argument: split on runs of whitespace,
discarding empty pieces.  Used by the fallback `nltk_word_tokenize`
(metrics.py lines 21-22). -/
def pySplitWs (s : String) : List String := (splitWsAux [] s.data).map String.mk

/-- Auxiliary for `reSplitAny`: split a character list at every
occurrence of a character from `seps`, keeping empty pieces, as Python
`re.split` with a character class does. -/
def reSplitAux (seps : List Char) : List Char → List (List Char)
  | [] => [[]]
  | c :: rest =>
    if seps.contains c then [] :: reSplitAux seps rest
    else
      match reSplitAux seps rest with
      | [] => [[c]]
      | g :: gs => (c :: g) :: gs

/-- Python `re.split` with a character-class pattern: split at each
occurrence of any character of `seps`, keeping empty fragments. -/
def reSplitAny (seps : List Char) (s : String) : List String :=
  (reSplitAux seps s.data).map String.mk

/-- The sentence-terminal punctuation class `[。.!?]` of metrics.py
line 88. -/
def sentenceSeps : List Char := ['。', '.', '!', '?']

/-- True when Python `s.strip()` is truthy, i.e. `s` has at least one
non-whitespace character (metrics.py line 89 keeps such fragments). -/
def stripTruthy (s : String) : Bool := s.data.any (fun c => !(isWs c))

/-- Word characters of the `\w` regex class used at metrics.py lines
154-155 (model: ASCII alphanumerics and underscore; Python additionally
treats non-ASCII word characters as `\w`, which no claim exercises). -/
def isWordChar (c : Char) : Bool := c.isAlphanum || c = '_'

/-- Auxiliary for `reFindallWords`: collect maximal runs of word
characters. -/
def findallAux (acc : List Char) : List Char → List (List Char)
  | [] => if acc.isEmpty then [] else [acc.reverse]
  | c :: rest =>
    if isWordChar c then findallAux (c :: acc) rest
    else if acc.isEmpty then findallAux [] rest
    else acc.reverse :: findallAux [] rest

/-- Python `re.findall(r'\w+', s)`: the maximal runs of word
characters, in order. -/
def reFindallWords (s : String) : List String :=
  (findallAux [] s.data).map String.mk

/-- Auxiliary for `strContains`: does `sub` occur as a contiguous
sublist? -/
def containsAux (sub : List Char) : List Char → Bool
  | [] => sub.isPrefixOf ([] : List Char)
  | c :: rest => sub.isPrefixOf (c :: rest) || containsAux sub rest

/-- Python `sub in s` substring test. -/
def strContains (s sub : String) : Bool := containsAux sub.data s.data

/-- The oracle environment for external library calls inside
`calculate_metrics`.  A `none` result of a fallible oracle stands for
the call raising an exception at that point of the Python code. -/
structure Env where
  /-- `list(Tokenizer().tokenize(answer))`, as the list of token
  surfaces (metrics.py lines 60-61); `none` = the janome call raises. -/
  janomeTokens : String → Option (List String)
  /-- Whether the module-level NLTK import block (lines 12-18)
  succeeded; `false` activates the fallback definitions of lines
  21-31. -/
  nltkAvailable : Bool
  /-- `SentimentIntensityAnalyzer().polarity_scores(s)['compound']`
  (lines 67-68); `none` = the analyzer raises. -/
  siaCompound : String → Option ℚ
  /-- NLTK `word_tokenize(s)` when available (line 16); `none` = it
  raises. -/
  nltkTokenize : String → Option (List String)
  /-- NLTK `sentence_bleu(references, candidate, weights=(0.25,)*4)`
  when available (line 15); `none` = it raises. -/
  nltkBleu : List (List String) → List String → Option ℚ
  /-- `cosine_similarity` of the TF-IDF vectors of the two documents
  (lines 142-146); `none` = vectorization or similarity raises. -/
  tfidfCosine : String → String → Option ℚ

/-- Positive keyword list of the sentiment fallback (metrics.py
line 73). -/
def positive_words : List String := ["良い", "素晴らしい", "優れた", "簡単", "効果的", "役立つ"]

/-- Negative keyword list of the sentiment fallback (metrics.py
line 74). -/
def negative_words : List String := ["悪い", "難しい", "複雑", "問題", "困難", "欠点"]

/-- Sentiment sub-scorer (metrics.py lines 64-83): primary VADER
compound rescaled by `(compound+1)/2`; on any failure (including the
`NameError` when NLTK never loaded), the keyword-count fallback, with
0.5 for no keyword hits. -/
def sentimentScore (env : Env) (answer : String) : ℚ :=
  match (if env.nltkAvailable then env.siaCompound (pyLower answer) else none) with
  | some compound => (compound + 1) / 2
  | none =>
    let pos_count := (positive_words.filter (fun w => strContains answer w)).length
    let neg_count := (negative_words.filter (fun w => strContains answer w)).length
    let total := pos_count + neg_count
    if total > 0 then (pos_count : ℚ) / (total : ℚ) else 1/2

/-- The sentence list of metrics.py lines 88-89: split the answer on
`[。.!?]` and keep the fragments whose `strip()` is truthy. -/
def sentenceFragments (answer : String) : List String :=
  (reSplitAny sentenceSeps answer).filter stripTruthy

/-- Readability sub-scorer (metrics.py lines 85-98): split on
`[。.!?]`, keep fragments with a truthy `strip()`, return 0 with no
fragments, else `max(0, min(1, 2 - |len(answer)/n - 40| / 40))`.  The
body is pure, so its `except` branch is unreachable. -/
def readabilityScore (answer : String) : ℚ :=
  let sentences := sentenceFragments answer
  if sentences.length > 0 then
    let avg_sentence_length : ℚ := (answer.length : ℚ) / (sentences.length : ℚ)
    pyMax 0 (pyMin 1 (2 - pyAbs (avg_sentence_length - 40) / 40))
  else 0

/-- Diversity sub-scorer (metrics.py lines 100-108): distinct token
surfaces over total tokens; 0 for no tokens.  Pure, so its `except`
branch is unreachable. -/
def diversityScore (tokens : List String) : ℚ :=
  if tokens.length > 0 then (tokens.eraseDups.length : ℚ) / (tokens.length : ℚ)
  else 0

/-- Conciseness sub-scorer (metrics.py lines 110-121): piecewise in the
character length.  Pure, so its `except` branch is unreachable. -/
def concisenessScore (answer : String) : ℚ :=
  let char_length := answer.length
  if char_length < 50 then (char_length : ℚ) / 50
  else if char_length ≤ 300 then 1
  else pyMax 0 (1 - ((char_length : ℚ) - 300) / 700)

/-- Fallback `nltk_sentence_bleu` (metrics.py lines 23-31): unordered
word-overlap F1 over the unique-word sets of `references[0]` and
`candidate`.  Every call site passes a non-empty `references` list, so
`references[0]` is modelled by `headD []`. -/
def nltk_sentence_bleu_fallback (references : List (List String)) (candidate : List String) : ℚ :=
  let ref_words := (references.headD []).eraseDups
  let cand_words := candidate.eraseDups
  let common_words := cand_words.filter (fun w => ref_words.contains w)
  let precision : ℚ := if !cand_words.isEmpty then (common_words.length : ℚ) / (cand_words.length : ℚ) else 0
  let recallVal : ℚ := if !ref_words.isEmpty then (common_words.length : ℚ) / (ref_words.length : ℚ) else 0
  if precision + recallVal > 0 then 2 * (precision * recallVal) / (precision + recallVal) else 0

/-- Parameter names of the fallback `nltk_sentence_bleu` signature
(metrics.py line 23): `def nltk_sentence_bleu(references, candidate)`. -/
def fallbackBleuParams : List String := ["references", "candidate"]

/-- Keyword arguments supplied at the BLEU call site (metrics.py line
134): `nltk_sentence_bleu(reference, candidate, weights=(0.25, 0.25,
0.25, 0.25))`. -/
def bleuCallKeywordArgs : List String := ["weights"]

/-- Python call semantics: a call raises `TypeError` when it passes a
keyword argument that matches no parameter of the callee. -/
def fallbackBleuCallRaises : Bool :=
  bleuCallKeywordArgs.any (fun k => !(fallbackBleuParams.contains k))

/-- `nltk_word_tokenize` as visible inside `calculate_metrics`: the
real NLTK tokenizer oracle when the import block succeeded, otherwise
the pure `text.split()` fallback of lines 21-22 (which never raises). -/
def wordTokenize (env : Env) (s : String) : Option (List String) :=
  if env.nltkAvailable then env.nltkTokenize s else some (pySplitWs s)

/-- BLEU sub-scorer block (metrics.py lines 128-138), given a non-empty
`correct_answer`: tokenize both strings, guard the empty candidate,
then call `nltk_sentence_bleu(reference, candidate, weights=(0.25,)*4)`.
In fallback mode that call itself raises `TypeError` (the fallback
signature has no `weights` parameter), which the surrounding `except`
turns into 0.0. -/
def bleuBlock (env : Env) (answer_lower correct_answer_lower : String) : ℚ :=
  match wordTokenize env correct_answer_lower with
  | none => 0
  | some reference =>
    match wordTokenize env answer_lower with
    | none => 0
    | some candidate =>
      if !candidate.isEmpty then
        if env.nltkAvailable then
          match env.nltkBleu [reference] candidate with
          | some b => b
          | none => 0
        else
          if fallbackBleuCallRaises then 0
          else nltk_sentence_bleu_fallback [reference] candidate
      else 0

/-- Similarity sub-scorer block (metrics.py lines 140-150): TF-IDF over
the two lower-cased documents plus cosine similarity when both strings
have truthy `strip()`, else 0; any raise inside gives 0. -/
def similarityBlock (env : Env) (answer_lower correct_answer_lower : String) : ℚ :=
  if stripTruthy answer_lower && stripTruthy correct_answer_lower then
    match env.tfidfCosine answer_lower correct_answer_lower with
    | some v => v
    | none => 0
  else 0

/-- Relevance sub-scorer block (metrics.py lines 152-162): the share of
the reference's `\w+` word set that also occurs in the candidate's word
set; 0 when the reference word set is empty.  Pure, so its `except`
branch is unreachable. -/
def relevanceBlock (answer_lower correct_answer_lower : String) : ℚ :=
  let answer_words := (reFindallWords answer_lower).eraseDups
  let correct_words := (reFindallWords correct_answer_lower).eraseDups
  if correct_words.length > 0 then
    ((answer_words.filter (fun w => correct_words.contains w)).length : ℚ) / (correct_words.length : ℚ)
  else 0

/-- The record of the eight values `calculate_metrics` returns as a
tuple (metrics.py lines 57 and 164). -/
structure MetricsResult where
  bleu_score : ℚ
  similarity_score : ℚ
  word_count : Nat
  relevance_score : ℚ
  sentiment_score : ℚ
  readability_score : ℚ
  diversity_score : ℚ
  conciseness_score : ℚ
deriving Repr, DecidableEq

/-- `calculate_metrics(answer, correct_answer)` (metrics.py lines
42-164).  `Except.error ()` models an exception escaping to the caller;
the only statements of the body outside a `try/except` that can raise
are the janome tokenizer construction/call of lines 60-61. -/
def calculate_metrics (env : Env) (answer correct_answer : String) : Except Unit MetricsResult :=
  if answer = "" then
    .ok { bleu_score := 0, similarity_score := 0, word_count := 0, relevance_score := 0,
          sentiment_score := 1/2, readability_score := 0, diversity_score := 0,
          conciseness_score := 0 }
  else
    match env.janomeTokens answer with
    | none => .error ()
    | some tokens =>
      let word_count := tokens.length
      let sentiment_score := sentimentScore env answer
      let readability_score := readabilityScore answer
      let diversity_score := diversityScore tokens
      let conciseness_score := concisenessScore answer
      let answer_lower := pyLower answer
      let correct_answer_lower := pyLower correct_answer
      let bleu_score := if correct_answer ≠ "" then bleuBlock env answer_lower correct_answer_lower else 0
      let similarity_score := if correct_answer ≠ "" then similarityBlock env answer_lower correct_answer_lower else 0
      let relevance_score := if correct_answer ≠ "" then relevanceBlock answer_lower correct_answer_lower else 0
      .ok { bleu_score := bleu_score, similarity_score := similarity_score,
            word_count := word_count, relevance_score := relevance_score,
            sentiment_score := sentiment_score, readability_score := readability_score,
            diversity_score := diversity_score, conciseness_score := conciseness_score }

/-- The fixed weight table of `calculate_overall_quality_score`
(metrics.py lines 185-194), in source order. -/
def weights : List (String × ℚ) :=
  [("is_correct", 0.25), ("bleu_score", 0.15), ("similarity_score", 0.15),
   ("relevance_score", 0.15), ("sentiment_score", 0.05), ("readability_score", 0.10),
   ("diversity_score", 0.05), ("conciseness_score", 0.10)]

/-- `calculate_overall_quality_score(metrics_dict)` (metrics.py lines
182-203).  The dict is modelled as a partial map; `none` covers both an
absent key and a key bound to `None`, which the loop treats alike. -/
def calculate_overall_quality_score (metrics_dict : String → Option ℚ) : ℚ :=
  let score := weights.foldl
    (fun acc p => match metrics_dict p.1 with
      | some v => acc + v * p.2
      | none => acc) 0
  pyMin 100 (pyMax 0 (score * 100))

/-- `clamp(lo, hi, x)`: clip `x` into `[lo, hi]`, as written in the
specification text for the readability and aggregate formulas. -/
def clamp (lo hi x : ℚ) : ℚ := pyMax lo (pyMin hi x)

/-- The raw weighted sum described for the aggregator: every weight
table entry whose metric is present (and non-null) contributes
`value * weight`, an absent entry contributes 0, with no
renormalization of the remaining weights. -/
def rawQualitySum (metrics_dict : String → Option ℚ) : ℚ :=
  (weights.map (fun p => ((metrics_dict p.1).map (fun v => v * p.2)).getD 0)).sum

/-- A concrete environment in fallback mode (the NLTK import block
failed): the janome tokenizer splits on whitespace and never raises,
every other oracle raises. -/
def fbEnv : Env :=
  { janomeTokens := fun s => some (pySplitWs s), nltkAvailable := false,
    siaCompound := fun _ => none, nltkTokenize := fun _ => none,
    nltkBleu := fun _ _ => none, tfidfCosine := fun _ _ => none }

/-- A concrete environment whose janome morphological tokenizer raises
on every input (e.g. its dictionary failed to load). -/
def crashTokEnv : Env :=
  { janomeTokens := fun _ => none, nltkAvailable := false,
    siaCompound := fun _ => none, nltkTokenize := fun _ => none,
    nltkBleu := fun _ _ => none, tfidfCosine := fun _ _ => none }

/-- The string of `n` copies of the letter `a`. -/
def repA (n : Nat) : String := String.mk (List.replicate n 'a')

/-- A concrete partial metrics mapping: only `bleu_score` is present,
with value 1/2. -/
def halfBleuDict : String → Option ℚ :=
  fun k => if k = "bleu_score" then some (1/2) else none

/-- The mapping that binds each of the eight weighted metric names to
1 and leaves every other key absent. -/
def allOnesDict : String → Option ℚ :=
  fun k => if (weights.map Prod.fst).contains k then some 1 else none

/-- Helper: on a non-empty answer whose janome tokenization succeeds,
`calculate_metrics` returns the record assembled from the sub-scorers. -/
theorem calcMetrics_ok_of_ne (env : Env) (answer correct_answer : String)
    (h : ¬ answer = "") (toks : List String)
    (htok : env.janomeTokens answer = some toks) :
    calculate_metrics env answer correct_answer =
      .ok { bleu_score := if correct_answer ≠ "" then bleuBlock env (pyLower answer) (pyLower correct_answer) else 0,
            similarity_score := if correct_answer ≠ "" then similarityBlock env (pyLower answer) (pyLower correct_answer) else 0,
            word_count := toks.length,
            relevance_score := if correct_answer ≠ "" then relevanceBlock (pyLower answer) (pyLower correct_answer) else 0,
            sentiment_score := sentimentScore env answer,
            readability_score := readabilityScore answer,
            diversity_score := diversityScore toks,
            conciseness_score := concisenessScore answer } := by
  unfold calculate_metrics
  rw [if_neg h, htok]

/-- Helper: the aggregator's fold equals the initial value plus the
sum of the per-entry contributions. -/
theorem foldl_qsum (d : String → Option ℚ) (l : List (String × ℚ)) :
    ∀ a : ℚ, l.foldl (fun acc p => match d p.1 with | some v => acc + v * p.2 | none => acc) a
      = a + (l.map (fun p => ((d p.1).map (fun v => v * p.2)).getD 0)).sum := by
  induction l with
  | nil => intro a; simp
  | cons p l ih =>
    intro a
    rw [List.foldl_cons, List.map_cons, List.sum_cons]
    cases hd : d p.1 with
    | none => simp only [hd]; rw [ih]; simp
    | some v => simp only [hd]; rw [ih]; simp [add_assoc]

/-- Helper: the aggregator equals the clamped scaled raw sum. -/
theorem aggregate_eq_clamp (d : String → Option ℚ) :
    calculate_overall_quality_score d = clamp 0 100 (rawQualitySum d * 100) := by
  simp only [calculate_overall_quality_score, rawQualitySum]
  rw [foldl_qsum d weights 0, zero_add]
  unfold clamp pyMin pyMax
  split_ifs <;> linarith

/-- C5: for a metrics mapping whose present values lie in [0,1], the
aggregator stays within [0,100]; each present entry contributes
`value * weight`, absent entries contribute 0 without renormalization,
and the result is `clamp(0, 100, raw_sum * 100)`. -/
theorem C5_aggregate_clamped_weighted_sum (d : String → Option ℚ)
    (h : ∀ k v, d k = some v → 0 ≤ v ∧ v ≤ 1) :
    (0 ≤ calculate_overall_quality_score d ∧ calculate_overall_quality_score d ≤ 100) ∧
    calculate_overall_quality_score d = clamp 0 100 (rawQualitySum d * 100) := by
  refine ⟨?_, aggregate_eq_clamp d⟩
  rw [aggregate_eq_clamp d]
  unfold clamp pyMin pyMax
  split_ifs <;> constructor <;> linarith

/-- Witness for C5: the mapping holding only `bleu_score = 1/2`
satisfies the hypothesis, and the theorem applies to it. -/
theorem C5_witness :
    (∀ k v, halfBleuDict k = some v → 0 ≤ v ∧ v ≤ 1) ∧
    ((0 ≤ calculate_overall_quality_score halfBleuDict ∧
      calculate_overall_quality_score halfBleuDict ≤ 100) ∧
     calculate_overall_quality_score halfBleuDict =
       clamp 0 100 (rawQualitySum halfBleuDict * 100)) := by
  have h : ∀ k v, halfBleuDict k = some v → 0 ≤ v ∧ v ≤ 1 := by
    intro k v hkv
    unfold halfBleuDict at hkv
    split_ifs at hkv
    cases hkv; constructor <;> norm_num
  exact ⟨h, C5_aggregate_clamped_weighted_sum halfBleuDict h⟩

/-- C6: the weight table lists non-negative coefficients
0.25/0.15/0.15/0.15/0.05/0.10/0.05/0.10 for is_correct, bleu,
similarity, relevance, sentiment, readability, diversity, conciseness,
they sum to exactly 1, and the aggregator maps the all-ones mapping
over those eight metrics to exactly 100. -/
theorem C6_weights_and_all_ones :
    (∀ p ∈ weights, 0 ≤ p.2) ∧
    weights.map Prod.fst = ["is_correct", "bleu_score", "similarity_score", "relevance_score",
      "sentiment_score", "readability_score", "diversity_score", "conciseness_score"] ∧
    weights.map Prod.snd = [0.25, 0.15, 0.15, 0.15, 0.05, 0.10, 0.05, 0.10] ∧
    (weights.map Prod.snd).sum = 1 ∧
    calculate_overall_quality_score allOnesDict = 100 := by
  refine ⟨?_, rfl, rfl, ?_, ?_⟩
  · intro p hp
    simp [weights] at hp
    rcases hp with h | h | h | h | h | h | h | h <;> subst h <;> norm_num
  · simp [weights]
    norm_num
  · simp +decide [calculate_overall_quality_score, allOnesDict, weights, pyMin, pyMax]
    norm_num

/-- C10: for every metrics mapping, with arbitrary present values, the
aggregator returns a value within [0,100]; on the empty mapping it
returns 0. -/
theorem C10_aggregate_always_bounded :
    (∀ d : String → Option ℚ,
       0 ≤ calculate_overall_quality_score d ∧ calculate_overall_quality_score d ≤ 100) ∧
    calculate_overall_quality_score (fun _ => none) = 0 := by
  constructor
  · intro d
    rw [aggregate_eq_clamp d]
    unfold clamp pyMin pyMax
    split_ifs <;> constructor <;> linarith
  · simp [calculate_overall_quality_score, weights, pyMin, pyMax]

/-- C8: for every reference, an empty candidate yields the all-default
result: word_count 0, every reference-dependent and candidate-only
score 0, sentiment 0.5. -/
theorem C8_empty_candidate_defaults (env : Env) (correct_answer : String) :
    calculate_metrics env "" correct_answer =
      .ok { bleu_score := 0, similarity_score := 0, word_count := 0, relevance_score := 0,
            sentiment_score := 1/2, readability_score := 0, diversity_score := 0,
            conciseness_score := 0 } := by
  unfold calculate_metrics
  rw [if_pos rfl]

/-- C9: with an empty reference, every returned result has
bleu = similarity = relevance = 0, and (for a non-empty candidate whose
tokenization succeeds) the remaining fields are exactly the
candidate-only sub-scorers applied to the candidate. -/
theorem C9_empty_reference_zeroes (env : Env) (answer : String) :
    (∀ r : MetricsResult, calculate_metrics env answer "" = .ok r →
       r.bleu_score = 0 ∧ r.similarity_score = 0 ∧ r.relevance_score = 0) ∧
    (∀ toks : List String, env.janomeTokens answer = some toks → answer ≠ "" →
       calculate_metrics env answer "" =
         .ok { bleu_score := 0, similarity_score := 0, word_count := toks.length,
               relevance_score := 0, sentiment_score := sentimentScore env answer,
               readability_score := readabilityScore answer,
               diversity_score := diversityScore toks,
               conciseness_score := concisenessScore answer }) := by
  constructor
  · intro r hr
    by_cases he : answer = ""
    · subst he
      unfold calculate_metrics at hr
      rw [if_pos rfl] at hr
      cases hr
      exact ⟨rfl, rfl, rfl⟩
    · cases htok : env.janomeTokens answer with
      | none =>
        unfold calculate_metrics at hr
        rw [if_neg he, htok] at hr
        cases hr
      | some toks =>
        rw [calcMetrics_ok_of_ne env answer "" he toks htok] at hr
        cases hr
        refine ⟨?_, ?_, ?_⟩ <;> simp
  · intro toks htok he
    rw [calcMetrics_ok_of_ne env answer "" he toks htok]
    simp

/-- Witness for C9: the concrete candidate `abc` in the fallback
environment, with its evaluated candidate-only scores. -/
theorem C9_witness :
    fbEnv.janomeTokens "abc" = some ["abc"] ∧ ("abc" : String) ≠ "" ∧
    calculate_metrics fbEnv "abc" "" =
      .ok { bleu_score := 0, similarity_score := 0, word_count := 1, relevance_score := 0,
            sentiment_score := 1/2, readability_score := 1, diversity_score := 1,
            conciseness_score := 3/50 } := by
  have htok : fbEnv.janomeTokens "abc" = some ["abc"] := rfl
  have hne : ("abc" : String) ≠ "" := by decide
  have h := (C9_empty_reference_zeroes fbEnv "abc").2 ["abc"] htok hne
  refine ⟨htok, hne, ?_⟩
  rw [h]
  have hpos : positive_words.filter (fun w => strContains "abc" w) = [] := rfl
  have hneg : negative_words.filter (fun w => strContains "abc" w) = [] := rfl
  have hfr : sentenceFragments "abc" = ["abc"] := rfl
  have hlen : ("abc" : String).length = 3 := rfl
  have hdup : (["abc"] : List String).eraseDups = ["abc"] := rfl
  simp only [sentimentScore, readabilityScore, diversityScore, concisenessScore, fbEnv,
    hpos, hneg, hfr, hlen, hdup]
  norm_num [pyMax, pyMin, pyAbs]

/-- C1 counterexample: when the janome morphological tokenizer raises
(metrics.py lines 60-61 are outside every try/except), the exception
propagates to the caller instead of being replaced by a default, so
`calculate_metrics` is not total over sub-scorer failures. -/
theorem C1_counterexample :
    calculate_metrics crashTokEnv "abc" "xyz" = .error () := rfl

/-- C1 (amended): provided the candidate is empty or the morphological
tokenizer call for word_count succeeds, `calculate_metrics` always
returns a complete result, whatever the other sub-scorer oracles do:
every other internal failure is caught at its sub-scorer boundary. -/
theorem C1_amended_total (env : Env) (answer correct_answer : String)
    (h : answer = "" ∨ (env.janomeTokens answer).isSome = true) :
    ∃ r : MetricsResult, calculate_metrics env answer correct_answer = .ok r := by
  by_cases he : answer = ""
  · subst he
    exact ⟨_, by unfold calculate_metrics; rw [if_pos rfl]⟩
  · rcases h with h | h
    · exact absurd h he
    · cases htok : env.janomeTokens answer with
      | none => rw [htok] at h; simp at h
      | some toks =>
        exact ⟨_, calcMetrics_ok_of_ne env answer correct_answer he toks htok⟩

/-- Witness for the amended C1: a concrete environment in which the
tokenizer succeeds and every other oracle raises. -/
theorem C1_witness :
    (("hello" : String) = "" ∨ (fbEnv.janomeTokens "hello").isSome = true) ∧
    ∃ r : MetricsResult, calculate_metrics fbEnv "hello" "world" = .ok r :=
  ⟨Or.inr rfl, C1_amended_total fbEnv "hello" "world" (Or.inr rfl)⟩

/-- C2: in fallback mode (NLTK unavailable), the BLEU call site passes
the keyword argument `weights`, which the fallback signature
`def nltk_sentence_bleu(references, candidate)` rejects; the resulting
TypeError is caught by the surrounding except and bleu_score is 0.0 —
not the word-overlap F1 the fallback body computes, which is 1 for the
identical non-empty texts below. -/
theorem C2_fallback_bleu_zero_not_f1 :
    fallbackBleuCallRaises = true ∧
    calculate_metrics fbEnv "a b" "a b" =
      .ok { bleu_score := 0, similarity_score := 0, word_count := 2, relevance_score := 1,
            sentiment_score := 1/2, readability_score := 1, diversity_score := 1,
            conciseness_score := 3/50 } ∧
    nltk_sentence_bleu_fallback [pySplitWs (pyLower "a b")] (pySplitWs (pyLower "a b")) = 1 := by
  refine ⟨rfl, ?_, ?_⟩
  · have h1 : pySplitWs (pyLower "a b") = ["a", "b"] := rfl
    have h2 : pySplitWs "a b" = ["a", "b"] := rfl
    have h3 : (reFindallWords (pyLower "a b")).eraseDups = ["a", "b"] := rfl
    have h4 : List.filter stripTruthy (reSplitAny sentenceSeps "a b") = ["a b"] := rfl
    have h6 : ("a b" : String).length = 3 := rfl
    have h7 : (["a", "b"] : List String).eraseDups = ["a", "b"] := rfl
    simp +decide [calculate_metrics, sentimentScore, readabilityScore, sentenceFragments,
      diversityScore, concisenessScore, bleuBlock, similarityBlock, relevanceBlock,
      wordTokenize, fbEnv, fallbackBleuCallRaises, fallbackBleuParams, bleuCallKeywordArgs,
      h1, h2, h3, h4, h6, h7, pyMax, pyMin, pyAbs]
    norm_num
  · have h1 : pySplitWs (pyLower "a b") = ["a", "b"] := rfl
    have h7 : (["a", "b"] : List String).eraseDups = ["a", "b"] := rfl
    have h8 : (["a", "b"] : List String).filter (fun w => (["a", "b"] : List String).contains w)
        = ["a", "b"] := rfl
    simp only [nltk_sentence_bleu_fallback, h1, h7, List.headD, h8]
    norm_num

/-- Helper: the readability formula at average length exactly 40 gives
1; at average length 120 or more it gives 0. -/
theorem readabilityScore_peak (answer : String)
    (hfrag : 0 < (sentenceFragments answer).length) :
    ((answer.length : ℚ) / ((sentenceFragments answer).length : ℚ) = 40 →
      readabilityScore answer = 1) ∧
    (120 ≤ (answer.length : ℚ) / ((sentenceFragments answer).length : ℚ) →
      readabilityScore answer = 0) := by
  simp only [readabilityScore]
  rw [if_pos hfrag]
  constructor
  · intro h40
    rw [h40]
    norm_num [pyMax, pyMin, pyAbs]
  · intro h120
    unfold pyAbs pyMin pyMax
    split_ifs <;> linarith

/-- C3 counterexample: a candidate of 80 characters in one sentence has
average sentence length 80 yet readability score 1, not the claimed 0. -/
theorem C3_counterexample :
    repA 80 ≠ "" ∧ (sentenceFragments (repA 80)).length = 1 ∧
    ((repA 80).length : ℚ) / ((sentenceFragments (repA 80)).length : ℚ) = 80 ∧
    (calculate_metrics fbEnv (repA 80) "").map (fun r => r.readability_score) = .ok 1 ∧
    (1 : ℚ) ≠ 0 := by
  have hlen : (repA 80).length = 80 := rfl
  have hfr : (sentenceFragments (repA 80)).length = 1 := rfl
  refine ⟨by decide, hfr, by rw [hlen, hfr]; norm_num, ?_, by norm_num⟩
  rw [calcMetrics_ok_of_ne fbEnv (repA 80) "" (by decide) [repA 80] rfl]
  simp only [Except.map]
  simp only [readabilityScore]
  rw [if_pos (by rw [hfr]; norm_num)]
  rw [hlen, hfr]
  norm_num [pyMax, pyMin, pyAbs]

/-- C3 (amended): for a non-empty candidate with at least one sentence
fragment (and successful tokenization), average sentence length exactly
40 gives readability 1.0, and average sentence length 120 or more gives
readability 0.0 (the code clamps the triangle 2 - |avg - 40|/40 to 1 up
to average length 80 and reaches 0 only at 120). -/
theorem C3_amended_readability_peaks (env : Env) (answer correct_answer : String)
    (h : answer ≠ "") (toks : List String) (htok : env.janomeTokens answer = some toks)
    (hfrag : 0 < (sentenceFragments answer).length) :
    (((answer.length : ℚ) / ((sentenceFragments answer).length : ℚ) = 40 →
       (calculate_metrics env answer correct_answer).map (fun r => r.readability_score) = .ok 1)) ∧
    ((120 ≤ (answer.length : ℚ) / ((sentenceFragments answer).length : ℚ) →
       (calculate_metrics env answer correct_answer).map (fun r => r.readability_score) = .ok 0)) := by
  have hp := readabilityScore_peak answer hfrag
  rw [calcMetrics_ok_of_ne env answer correct_answer h toks htok]
  constructor
  · intro h40
    simp only [Except.map]
    rw [hp.1 h40]
  · intro h120
    simp only [Except.map]
    rw [hp.2 h120]

/-- Witness for the amended C3: 40 characters in one sentence give
average length 40 and readability 1. -/
theorem C3_witness :
    (repA 40 ≠ "" ∧ 0 < (sentenceFragments (repA 40)).length ∧
      ((repA 40).length : ℚ) / ((sentenceFragments (repA 40)).length : ℚ) = 40) ∧
    (calculate_metrics fbEnv (repA 40) "").map (fun r => r.readability_score) = .ok 1 := by
  have hne : repA 40 ≠ "" := by decide
  have htok : fbEnv.janomeTokens (repA 40) = some [repA 40] := rfl
  have hfr : (sentenceFragments (repA 40)).length = 1 := rfl
  have hfrag : 0 < (sentenceFragments (repA 40)).length := by rw [hfr]; norm_num
  have hlen : (repA 40).length = 40 := rfl
  have havg : ((repA 40).length : ℚ) / ((sentenceFragments (repA 40)).length : ℚ) = 40 := by
    rw [hlen, hfr]; norm_num
  exact ⟨⟨hne, hfrag, havg⟩,
    (C3_amended_readability_peaks fbEnv (repA 40) "" hne [repA 40] htok hfrag).1 havg⟩

/-- C4: for every non-empty candidate (with successful tokenization),
the readability score is obtained by splitting on sentence-terminal
punctuation, discarding blank fragments, returning 0 when no fragments
remain, and otherwise `clamp(0, 1, 2 - |len/count - 40| / 40)` with
`len` the candidate's character length and `count` the fragment
count. -/
theorem C4_readability_formula (env : Env) (answer correct_answer : String)
    (h : answer ≠ "") (toks : List String) (htok : env.janomeTokens answer = some toks) :
    (calculate_metrics env answer correct_answer).map (fun r => r.readability_score) =
      .ok (if (sentenceFragments answer).length = 0 then 0
           else clamp 0 1
             (2 - pyAbs ((answer.length : ℚ) / ((sentenceFragments answer).length : ℚ) - 40) / 40)) := by
  rw [calcMetrics_ok_of_ne env answer correct_answer h toks htok]
  simp only [Except.map]
  simp only [readabilityScore, clamp]
  rcases Nat.eq_zero_or_pos (sentenceFragments answer).length with h0 | h0
  · rw [h0]
    simp
  · rw [if_pos h0, if_neg (by omega)]

/-- Witness for C4: the candidate `ab.` has one fragment and the
formula evaluates to 1. -/
theorem C4_witness :
    ("ab." : String) ≠ "" ∧
    (calculate_metrics fbEnv "ab." "").map (fun r => r.readability_score) =
      .ok (if (sentenceFragments "ab.").length = 0 then 0
           else clamp 0 1
             (2 - pyAbs ((("ab." : String).length : ℚ) / ((sentenceFragments "ab.").length : ℚ) - 40) / 40)) ∧
    (if (sentenceFragments "ab.").length = 0 then (0 : ℚ)
     else clamp 0 1
       (2 - pyAbs ((("ab." : String).length : ℚ) / ((sentenceFragments "ab.").length : ℚ) - 40) / 40)) = 1 := by
  have hne : ("ab." : String) ≠ "" := by decide
  refine ⟨hne, C4_readability_formula fbEnv "ab." "" hne ["ab."] rfl, ?_⟩
  have hfr : (sentenceFragments "ab.").length = 1 := rfl
  have hlen : ("ab." : String).length = 3 := rfl
  rw [hfr, hlen]
  norm_num [clamp, pyMax, pyMin, pyAbs]

/-- C7: for every non-empty candidate of character length L,
conciseness is L/50 when L < 50, 1 when 50 ≤ L ≤ 300, and
max(0, 1 - (L-300)/700) when L > 300. -/
theorem C7_conciseness_piecewise (env : Env) (answer correct_answer : String)
    (h : answer ≠ "") (toks : List String) (htok : env.janomeTokens answer = some toks) :
    (calculate_metrics env answer correct_answer).map (fun r => r.conciseness_score) =
      .ok (if answer.length < 50 then (answer.length : ℚ) / 50
           else if answer.length ≤ 300 then 1
           else pyMax 0 (1 - ((answer.length : ℚ) - 300) / 700)) := by
  rw [calcMetrics_ok_of_ne env answer correct_answer h toks htok]
  simp only [Except.map]
  rfl

/-- Witness for C7: lengths 25, 150, 650 and 1000 evaluate to 1/2, 1,
1/2 and 0 respectively. -/
theorem C7_witness :
    (calculate_metrics fbEnv (repA 25) "").map (fun r => r.conciseness_score) = .ok (1/2) ∧
    (calculate_metrics fbEnv (repA 150) "").map (fun r => r.conciseness_score) = .ok 1 ∧
    (calculate_metrics fbEnv (repA 650) "").map (fun r => r.conciseness_score) = .ok (1/2) ∧
    (calculate_metrics fbEnv (repA 1000) "").map (fun r => r.conciseness_score) = .ok 0 := by
  refine ⟨?_, ?_, ?_, ?_⟩
  · rw [C7_conciseness_piecewise fbEnv (repA 25) "" (by decide) [repA 25] rfl]
    have hl : (repA 25).length = 25 := rfl
    rw [hl]; norm_num
  · rw [C7_conciseness_piecewise fbEnv (repA 150) "" (by decide) [repA 150] rfl]
    have hl : (repA 150).length = 150 := rfl
    rw [hl]; norm_num
  · rw [C7_conciseness_piecewise fbEnv (repA 650) "" (by decide) [repA 650] rfl]
    have hl : (repA 650).length = 650 := rfl
    rw [hl]; norm_num [pyMax]
  · rw [C7_conciseness_piecewise fbEnv (repA 1000) "" (by decide) [repA 1000] rfl]
    have hl : (repA 1000).length = 1000 := rfl
    rw [hl]; norm_num [pyMax]
